import Mathlib

/-!
Shallow embedding of the LineGuard-AI batch-analysis pipeline
(bff-service: task store, intake validation, worker loop, detector
gateway, manual-annotation merge, websocket fan-out), together with
theorems checking the specification claims against it.

Python integers are modelled as Nat where the source only ever holds
non-negative counts; `max(0, n - 1)` coincides with Nat subtraction
there.  Float thresholds are modelled as rationals.  UUIDs and
websocket handles are modelled as opaque Nat tokens.
-/

namespace LineGuard

/-- AnalysisStatus enum from app/models/analysis.py. -/
inductive AnalysisStatus where
  | queued
  | processing
  | completed
  | failed
deriving DecidableEq, Repr

/-- defect_summary sub-dict of a detection entry. -/
structure DefectSummary where
  type : String
  severity : String
  description : String
deriving DecidableEq, Repr

/-- bbox_size sub-dict of a detection entry. -/
structure BBoxSize where
  width : Int
  height : Int
  area : Int
  is_small : Bool
deriving DecidableEq, Repr

/-- one entry of summary.detections (dict key "class" is `className`). -/
structure Detection where
  className : String
  class_ru : String
  confidence : ℚ
  bbox : List Int
  bbox_size : BBoxSize
  defect_summary : DefectSummary
  is_manual : Bool
deriving DecidableEq, Repr

/-- summary JSON of an image row, restricted to its detections list,
the only part the verified operations inspect. -/
abbrev Summary := List Detection

/-- free-form metadata map of a job row, modelled as an association list. -/
abbrev MetadataDict := List (String × Nat)

/-- analysis_tasks row from app/models/analysis.py. -/
structure AnalysisTask where
  id : Nat
  status : AnalysisStatus
  route_name : Option String
  total_files : Nat
  total_bytes : Nat
  processed_files : Nat
  failed_files : Nat
  defects_found : Nat
  confidence_threshold : ℚ
  preview_limit : Nat
  message : Option String
  originals_archive_file_id : Option Nat
  results_archive_file_id : Option Nat
  updated_at : Nat
  completed_at : Option Nat
  task_metadata : Option MetadataDict
deriving DecidableEq, Repr

/-- analysis_images row from app/models/analysis.py. -/
structure AnalysisImage where
  id : Nat
  task_id : Nat
  file_id : Nat
  file_name : String
  file_size : Nat
  status : AnalysisStatus
  result_file_id : Option Nat
  is_preview : Bool
  summary : Option Summary
  error_message : Option String
  updated_at : Nat
deriving DecidableEq, Repr

/-- the Task Store: both tables of app/services/analysis_tasks.py. -/
structure Store where
  tasks : List AnalysisTask
  images : List AnalysisImage
deriving DecidableEq, Repr

/-- SQLAlchemy mutates the fetched row in place; committed state is the
row list with the matching primary key replaced. -/
def replaceTask (ts : List AnalysisTask) (t : AnalysisTask) : List AnalysisTask :=
  ts.map (fun x => if x.id = t.id then t else x)

/-- row replacement for the images table. -/
def replaceImage (is : List AnalysisImage) (i : AnalysisImage) : List AnalysisImage :=
  is.map (fun x => if x.id = i.id then i else x)

/-- get_task from app/services/analysis_tasks.py (select by primary key). -/
def get_task (s : Store) (task_id : Nat) : Option AnalysisTask :=
  s.tasks.find? (fun t => t.id == task_id)

/-- keyword arguments of update_task_progress; none means the keyword
was not supplied. -/
structure TaskProgressUpdate where
  processed_files : Option Nat := none
  failed_files : Option Nat := none
  defects_found : Option Nat := none
  status : Option AnalysisStatus := none
  message : Option String := none
deriving DecidableEq, Repr

/-- update_task_progress from app/services/analysis_tasks.py lines 70-100:
fetch the row, apply every supplied field, stamp completed_at on a
terminal status, stamp updated_at; a missing row returns None untouched. -/
def update_task_progress (s : Store) (task_id : Nat) (u : TaskProgressUpdate)
    (now : Nat) : Option AnalysisTask × Store :=
  match get_task s task_id with
  | none => (none, s)
  | some task =>
    let task := { task with processed_files := u.processed_files.getD task.processed_files }
    let task := { task with failed_files := u.failed_files.getD task.failed_files }
    let task := { task with defects_found := u.defects_found.getD task.defects_found }
    let task :=
      match u.status with
      | none => task
      | some st =>
        let task := { task with status := st }
        if st = AnalysisStatus.completed ∨ st = AnalysisStatus.failed then
          { task with completed_at := some now }
        else task
    let task :=
      match u.message with
      | none => task
      | some m => { task with message := some m }
    let task := { task with updated_at := now }
    (some task, { s with tasks := replaceTask s.tasks task })

/-- keyword arguments of update_image. -/
structure ImageUpdate where
  status : Option AnalysisStatus := none
  summary : Option Summary := none
  is_preview : Option Bool := none
  result_file_id : Option Nat := none
  error_message : Option String := none
deriving DecidableEq, Repr

/-- update_image from app/services/analysis_tasks.py lines 140-170:
fetch the row by id, apply every supplied field, stamp updated_at;
a missing row returns None untouched. -/
def update_image (s : Store) (image_id : Nat) (u : ImageUpdate)
    (now : Nat) : Option AnalysisImage × Store :=
  match s.images.find? (fun i => i.id == image_id) with
  | none => (none, s)
  | some image =>
    let image := { image with status := u.status.getD image.status }
    let image :=
      match u.summary with
      | none => image
      | some sm => { image with summary := some sm }
    let image := { image with is_preview := u.is_preview.getD image.is_preview }
    let image :=
      match u.result_file_id with
      | none => image
      | some r => { image with result_file_id := some r }
    let image :=
      match u.error_message with
      | none => image
      | some e => { image with error_message := some e }
    let image := { image with updated_at := now }
    (some image, { s with images := replaceImage s.images image })

/-- set_task_archives from app/services/analysis_tasks.py lines 173-195.
The Python guards are `if originals_archive_id:` and
`if results_archive_id:` (a UUID object is always truthy, so the test
is exactly is-not-None) and `if metadata is not None:`. -/
def set_task_archives (s : Store) (task_id : Nat)
    (originals_archive_id : Option Nat) (results_archive_id : Option Nat)
    (metadata : Option MetadataDict) (now : Nat) : Option AnalysisTask × Store :=
  match get_task s task_id with
  | none => (none, s)
  | some task =>
    let task :=
      match originals_archive_id with
      | none => task
      | some a => { task with originals_archive_file_id := some a }
    let task :=
      match results_archive_id with
      | none => task
      | some r => { task with results_archive_file_id := some r }
    let task :=
      match metadata with
      | none => task
      | some m => { task with task_metadata := some m }
    let task := { task with updated_at := now }
    (some task, { s with tasks := replaceTask s.tasks task })

/-- delete_image from app/services/analysis_tasks.py lines 198-236:
select the image of that job, collect its blob ids, decrement
total_files always and processed_files when the image was Completed
(failed_files is left untouched), delete the row, return the blob ids. -/
def delete_image (s : Store) (task_id : Nat) (image_id : Nat)
    (now : Nat) : Option (List Nat) × Store :=
  match s.images.find? (fun i => i.id == image_id && i.task_id == task_id) with
  | none => (none, s)
  | some image =>
    match get_task s task_id with
    | none => (none, s)
    | some task =>
      let file_ids :=
        [image.file_id] ++ (match image.result_file_id with
          | some r => [r]
          | none => [])
      let task := { task with total_files := task.total_files - 1 }
      let task :=
        if image.status = AnalysisStatus.completed then
          { task with processed_files := task.processed_files - 1 }
        else task
      let task := { task with updated_at := now }
      (some file_ids,
        { tasks := replaceTask s.tasks task,
          images := s.images.filter (fun i => !(i.id == image_id && i.task_id == task_id)) })

/-! Manual-annotation merge, from the annotate_image handler of
app/api/analysis.py lines 602-645. -/

/-- BBox request model of app/api/analysis.py (pydantic): the client
may omit name and is_defect; pydantic defaults is_defect to True, an
explicit null also arrives as none and is treated as True below. -/
structure BBoxIn where
  x : Int
  y : Int
  width : Int
  height : Int
  name : Option String := none
  is_defect : Option Bool := some true
deriving DecidableEq, Repr

/-- Python `s or default` on an optional string: None and the empty
string both fall back. -/
def pyOrString (s : Option String) (default : String) : String :=
  match s with
  | some v => if v = "" then default else v
  | none => default

/-- conversion of one user-drawn box into a detection entry,
app/api/analysis.py lines 614-638. -/
def bbox_to_manual_detection (b : BBoxIn) : Detection :=
  let is_defect := b.is_defect.getD true
  { className := pyOrString b.name "Ручная аннотация",
    class_ru := pyOrString b.name "Ручная аннотация",
    confidence := 1,
    bbox := [b.x, b.y, b.x + b.width, b.y + b.height],
    bbox_size :=
      { width := b.width,
        height := b.height,
        area := b.width * b.height,
        is_small := decide (b.width < 30 ∨ b.height < 30) },
    defect_summary :=
      { type := if is_defect then "Повреждение" else "Норма",
        severity := if is_defect then "high" else "none",
        description := "Ручная аннотация" },
    is_manual := true }

/-- the merge itself, app/api/analysis.py lines 644-645: drop every
existing entry whose is_manual flag is set, keep the rest, append the
converted boxes. -/
def merge_manual_detections (existing : List Detection) (bboxes : List BBoxIn) :
    List Detection :=
  existing.filter (fun d => !d.is_manual) ++ bboxes.map bbox_to_manual_detection

/-! Detector gateway, app/services/yolov8_service.py. -/

/-- MAX_YOLO_FILE_SIZE_MB from app/core/config.py. -/
def MAX_YOLO_FILE_SIZE_MB : Nat := 512

/-- query parameters attached to the detector request,
app/services/yolov8_service.py line 44:
`params = {"conf": conf} if conf != 0.25 else {}`. -/
def predict_conf_params (conf : ℚ) : List (String × ℚ) :=
  if conf ≠ 0.25 then [("conf", conf)] else []

/-- the outgoing detector request of predict_bytes. -/
structure PredictRequest where
  path : String
  fileName : String
  params : List (String × ℚ)
deriving DecidableEq, Repr

/-- request construction of predict_bytes, app/services/yolov8_service.py
lines 15-49: an oversize buffer raises HTTP 400 before any request is
made; otherwise POST /predict is issued with the conf params above. -/
def predict_bytes_request (filename : String) (contentLen : Nat) (conf : ℚ) :
    Except Nat PredictRequest :=
  if contentLen > MAX_YOLO_FILE_SIZE_MB * 1024 * 1024 then
    Except.error 400
  else
    Except.ok { path := "/predict", fileName := filename, params := predict_conf_params conf }

/-! Intake validation, create_batch_task of app/api/analysis.py lines 57-201. -/

/-- MAX_BATCH_FILES from app/core/config.py. -/
def MAX_BATCH_FILES : Nat := 50000

/-- MAX_BATCH_SIZE_BYTES from app/core/config.py (10 GiB). -/
def MAX_BATCH_SIZE_BYTES : Nat := 10 * 1024 * 1024 * 1024

/-- UPLOAD_PREVIEW_LIMIT from app/core/config.py. -/
def UPLOAD_PREVIEW_LIMIT : Nat := 10

/-- SUPPORTED_EXTENSIONS from app/api/analysis.py. -/
def SUPPORTED_EXTENSIONS : List String :=
  [".jpg", ".jpeg", ".png", ".tif", ".tiff", ".bmp", ".dng", ".raw", ".nef", ".cr2", ".arw"]

/-- index of the last dot in a character list, if any. -/
def lastDotIdx : List Char → Option Nat
  | [] => none
  | c :: cs =>
    match lastDotIdx cs with
    | some i => some (i + 1)
    | none => if c = '.' then some 0 else none

/-- pathlib suffix rule on the final path component: the part from the
last dot, provided that dot is neither the first nor the last character. -/
def pySuffix (nm : List Char) : List Char :=
  match lastDotIdx nm with
  | some i => if 0 < i ∧ i < nm.length - 1 then nm.drop i else []
  | none => []

/-- final path component: the characters after the last slash. -/
def lastComponent (cs : List Char) : List Char :=
  cs.foldl (fun acc c => if c = '/' then [] else acc ++ [c]) []

/-- `Path(upload.filename or "").suffix.lower()` from
app/api/analysis.py line 81. -/
def file_extension (filename : String) : String :=
  String.mk ((pySuffix (lastComponent filename.toList)).map Char.toLower)

/-- one incoming multipart file: its client-supplied name (empty when
missing) and the size measured by seek-to-end in _ensure_size. -/
structure UploadFileIn where
  filename : String
  size : Nat
deriving DecidableEq, Repr

/-- the HTTP 400 rejections raised by create_batch_task. -/
inductive IntakeReject where
  | noFiles
  | tooManyFiles
  | archiveNotSupported
  | unsupportedFormat (ext : String)
  | tooLarge
deriving DecidableEq, Repr

/-- HTTP status code of each rejection (every raise in the validation
block of create_batch_task uses status_code=400). -/
def rejectStatus : IntakeReject → Nat := fun _ => 400

/-- externally visible writes performed by create_batch_task after
validation succeeds, in program order. -/
inductive IntakeEffect where
  | createTaskRow (total_files : Nat) (total_bytes : Nat)
  | batchUploadPreviews (count : Nat)
  | uploadStagingArchive
  | setArchives
  | addImageRows (count : Nat)
  | publishWorkMessage
deriving DecidableEq, Repr

/-- the per-file validation loop of create_batch_task lines 80-97:
reject ZIP/TAR, reject extensions outside SUPPORTED_EXTENSIONS,
accumulate the total byte size. -/
def scanFiles : List UploadFileIn → Nat → Except IntakeReject Nat
  | [], acc => Except.ok acc
  | f :: rest, acc =>
    let ext := file_extension f.filename
    if ext = ".zip" ∨ ext = ".tar" then Except.error IntakeReject.archiveNotSupported
    else if ext ∉ SUPPORTED_EXTENSIONS then Except.error (IntakeReject.unsupportedFormat ext)
    else scanFiles rest (acc + f.size)

/-- create_batch_task, app/api/analysis.py lines 57-201, reduced to its
decision structure: the validation chain runs first and, only when it
passes, the writes (job row, preview uploads, staging archive, image
rows, work-queue publish) happen. -/
def create_batch_task (files : List UploadFileIn) :
    Except IntakeReject Unit × List IntakeEffect :=
  if files.isEmpty then (Except.error IntakeReject.noFiles, [])
  else if files.length > MAX_BATCH_FILES then (Except.error IntakeReject.tooManyFiles, [])
  else
    match scanFiles files 0 with
    | Except.error e => (Except.error e, [])
    | Except.ok total_bytes =>
      if total_bytes > MAX_BATCH_SIZE_BYTES then (Except.error IntakeReject.tooLarge, [])
      else
        let preview_count := min files.length UPLOAD_PREVIEW_LIMIT
        let archive_count := files.length - preview_count
        (Except.ok (),
          [IntakeEffect.createTaskRow files.length total_bytes]
            ++ (if 0 < preview_count then [IntakeEffect.batchUploadPreviews preview_count] else [])
            ++ (if 0 < archive_count then [IntakeEffect.uploadStagingArchive, IntakeEffect.setArchives] else [])
            ++ [IntakeEffect.addImageRows preview_count, IntakeEffect.publishWorkMessage])

/-! Worker image loop, process_task of app/workers/analysis_worker.py. -/

/-- progress event payload, AnalysisTaskProgress of app/schemas/analysis.py. -/
structure ProgressEvent where
  task_id : Nat
  status : AnalysisStatus
  processed_files : Nat
  total_files : Nat
  failed_files : Nat
  defects_found : Nat
  message : String
deriving DecidableEq, Repr

/-- outcome of the per-image pipeline (detector call, rendering, zip
write): either the detector result arrives, or some step raises. -/
inductive DetectOutcome where
  | ok (has_defects : Bool) (defects_count : Nat)
  | raises
deriving DecidableEq, Repr

/-- mutable state threaded through the image loops of process_task:
counters, published events, per-image status writes, detector calls. -/
structure WorkerState where
  processed : Nat
  failed : Nat
  defects_found : Nat
  events : List ProgressEvent
  image_marks : List (Nat × AnalysisStatus)
  detector_calls : Nat
deriving DecidableEq, Repr

/-- worker state at the top of process_task (counters start at 0). -/
def initWorkerState : WorkerState :=
  { processed := 0, failed := 0, defects_found := 0,
    events := [], image_marks := [], detector_calls := 0 }

/-- the progress message f-string of the cadence block. -/
def progressMessage (processed total : Nat) : String :=
  "Обработано " ++ toString processed ++ "/" ++ toString total ++ " файлов"

/-- one iteration of the image loop (preview pass lines 285-377, bulk
pass lines 426-519, identical structure): mark Processing, call the
detector; on success fold counters and mark Completed, on a raise
increment failed and mark Failed; afterwards the cadence check
`if processed % 100 == 0 or failed % 100 == 0` writes counters and
publishes a Processing progress event. -/
def process_one_image (task_id total_files image_id : Nat)
    (outcome : DetectOutcome) (st : WorkerState) : WorkerState :=
  let st1 :=
    match outcome with
    | DetectOutcome.ok hd dc =>
      { st with
        image_marks := st.image_marks ++ [(image_id, AnalysisStatus.processing), (image_id, AnalysisStatus.completed)],
        detector_calls := st.detector_calls + 1,
        defects_found := st.defects_found + (if hd then dc else 0),
        processed := st.processed + 1 }
    | DetectOutcome.raises =>
      { st with
        image_marks := st.image_marks ++ [(image_id, AnalysisStatus.processing), (image_id, AnalysisStatus.failed)],
        detector_calls := st.detector_calls + 1,
        failed := st.failed + 1 }
  if st1.processed % 100 = 0 ∨ st1.failed % 100 = 0 then
    { st1 with
      events := st1.events ++ [{
        task_id := task_id,
        status := AnalysisStatus.processing,
        processed_files := st1.processed,
        total_files := total_files,
        failed_files := st1.failed,
        defects_found := st1.defects_found,
        message := progressMessage st1.processed total_files }] }
  else st1

/-- a run of consecutive image iterations (the preview loop, or the
per-entry loop inside one successfully uploaded bulk chunk). -/
def process_images (task_id total_files : Nat)
    (imgs : List (Nat × DetectOutcome)) (st : WorkerState) : WorkerState :=
  imgs.foldl (fun s p => process_one_image task_id total_files p.1 p.2 s) st

/-- one bulk chunk, lines 399-525: when the batch-upload succeeds the
per-entry loop runs; when it raises, the except branch only does
`failed += len(current_batch)` and continues with the next chunk
(no image rows exist, so nothing is marked, and the detector is
never called for the chunk). -/
def process_bulk_chunk (task_id total_files : Nat) (upload_ok : Bool)
    (chunk : List (Nat × DetectOutcome)) (st : WorkerState) : WorkerState :=
  if upload_ok then process_images task_id total_files chunk st
  else { st with failed := st.failed + chunk.length }

/-- the bulk pass: the chunks of 100 in order, each tagged with whether
its batch-upload succeeds. -/
def process_bulk (task_id total_files : Nat)
    (chunks : List (Bool × List (Nat × DetectOutcome))) (st : WorkerState) : WorkerState :=
  chunks.foldl (fun s c => process_bulk_chunk task_id total_files c.1 c.2 s) st

/-! Worker finalization of the archives, process_task lines 562-590. -/

/-- staging cleanup plus results-archive attachment: best-effort delete
of the staging archive blob, upload of the results zip as a fresh blob,
then set_task_archives with originals_archive_id=None.  The blob store
is the list of live blob ids; an upload appends a fresh id. -/
def finalize_task_archives (s : Store) (blobs : List Nat) (task : AnalysisTask)
    (results_upload_id : Nat) (meta : MetadataDict) (now : Nat) :
    Store × List Nat :=
  let blobs :=
    match task.originals_archive_file_id with
    | some aid => blobs.erase aid
    | none => blobs
  let blobs := blobs ++ [results_upload_id]
  let s := (set_task_archives s task.id none (some results_upload_id) (some meta) now).2
  (s, blobs)

/-! Progress Hub, TaskWebSocketManager of app/services/websocket_manager.py.
The registry is a defaultdict from task id to a set of sockets; it is
modelled as a total function whose absent keys are the empty list, which
makes the `del` of an emptied entry the identity on observable state.
Sockets are opaque Nat handles; whether send_json raises for a socket is
a parameter. -/

/-- the two registries of TaskWebSocketManager. -/
structure WSManager where
  connections : Nat → List Nat
  history_connections : List Nat

/-- TaskWebSocketManager.disconnect: membership-checked removal from the
per-task set (removing an absent socket changes nothing). -/
def wsDisconnect (m : WSManager) (task_id ws : Nat) : WSManager :=
  { m with connections := fun t =>
      if t = task_id then (m.connections task_id).erase ws else m.connections t }

/-- TaskWebSocketManager.disconnect_history. -/
def wsDisconnectHistory (m : WSManager) (ws : Nat) : WSManager :=
  { m with history_connections := m.history_connections.erase ws }

/-- send_to_history lines 56-75: try send_json on every history socket
in order, collect the ones that raise, then drop each of them; returns
the new registries and the sockets whose send succeeded. -/
def send_to_history (fails : Nat → Bool) (m : WSManager) : WSManager × List Nat :=
  let conns := m.history_connections
  let delivered := conns.filter (fun w => !fails w)
  let disconnected := conns.filter fails
  (disconnected.foldl (fun acc w => wsDisconnectHistory acc w) m, delivered)

/-- send_to_task lines 33-54: same try/collect/drop loop over the
sockets of that task, then forward the event to send_to_history. -/
def send_to_task (fails : Nat → Bool) (task_id : Nat) (m : WSManager) :
    WSManager × List Nat :=
  let conns := m.connections task_id
  let delivered := conns.filter (fun w => !fails w)
  let disconnected := conns.filter fails
  let m1 := disconnected.foldl (fun acc w => wsDisconnect acc task_id w) m
  let r := send_to_history fails m1
  (r.1, delivered ++ r.2)

/-! Concrete sample values used by the claim checks below. -/

/-- a job row holding exactly one image, which failed: total 1,
processed 0, failed 1. -/
def c3Task : AnalysisTask :=
  { id := 1, status := AnalysisStatus.failed, route_name := none,
    total_files := 1, total_bytes := 100,
    processed_files := 0, failed_files := 1, defects_found := 0,
    confidence_threshold := 1, preview_limit := 10,
    message := none, originals_archive_file_id := none,
    results_archive_file_id := none, updated_at := 0, completed_at := some 3,
    task_metadata := none }

/-- the single image of that job, in status Failed. -/
def c3Image : AnalysisImage :=
  { id := 10, task_id := 1, file_id := 100, file_name := "a.jpg", file_size := 100,
    status := AnalysisStatus.failed, result_file_id := none, is_preview := false,
    summary := none, error_message := some "detector raised", updated_at := 0 }

/-- store whose only job satisfies processed + failed ≤ total. -/
def c3Store : Store := { tasks := [c3Task], images := [c3Image] }

/-- the job row delete_image produces from c3Store. -/
def c3TaskAfter : AnalysisTask := { c3Task with total_files := 0, updated_at := 7 }

/-- a job row used to exercise the missing-id mutators. -/
def c10Task : AnalysisTask :=
  { id := 1, status := AnalysisStatus.processing, route_name := none,
    total_files := 3, total_bytes := 10,
    processed_files := 1, failed_files := 0, defects_found := 0,
    confidence_threshold := 1, preview_limit := 10,
    message := none, originals_archive_file_id := none,
    results_archive_file_id := none, updated_at := 0, completed_at := none,
    task_metadata := none }

/-- an image row used to exercise the missing-id mutators. -/
def c10Image : AnalysisImage :=
  { id := 10, task_id := 1, file_id := 100, file_name := "b.jpg", file_size := 10,
    status := AnalysisStatus.queued, result_file_id := none, is_preview := false,
    summary := none, error_message := none, updated_at := 0 }

/-- a store containing neither job id 2 nor image id 20. -/
def c10Store : Store := { tasks := [c10Task], images := [c10Image] }

/-- a job row whose staging archive is blob 55. -/
def c9Task : AnalysisTask :=
  { id := 1, status := AnalysisStatus.processing, route_name := none,
    total_files := 2, total_bytes := 10,
    processed_files := 2, failed_files := 0, defects_found := 0,
    confidence_threshold := 1, preview_limit := 10,
    message := none, originals_archive_file_id := some 55,
    results_archive_file_id := none, updated_at := 0, completed_at := none,
    task_metadata := none }

/-- store holding that job. -/
def c9Store : Store := { tasks := [c9Task], images := [] }

/-- a model-produced (non-manual) detection entry. -/
def c4NonManual : Detection :=
  { className := "damaged_insulator", class_ru := "повреждённый изолятор",
    confidence := 9 / 10, bbox := [1, 2, 3, 4],
    bbox_size := { width := 2, height := 2, area := 4, is_small := true },
    defect_summary := { type := "Повреждение", severity := "high", description := "" },
    is_manual := false }

/-- a previously stored manual detection entry. -/
def c4Manual : Detection :=
  { className := "foo", class_ru := "foo",
    confidence := 1, bbox := [0, 0, 2, 2],
    bbox_size := { width := 2, height := 2, area := 4, is_small := true },
    defect_summary := { type := "Норма", severity := "none", description := "Ручная аннотация" },
    is_manual := true }

/-- a fresh user-drawn box. -/
def c4Box : BBoxIn :=
  { x := 0, y := 0, width := 5, height := 5, name := some "bar", is_defect := some true }

/-- a hub with two subscribers on job 1, one on job 2 and one history
subscriber. -/
def wsSample : WSManager :=
  { connections := fun t => if t = 1 then [10, 11] else if t = 2 then [20] else [],
    history_connections := [30] }

/-- socket 11 raises on send, every other socket succeeds. -/
def wsFails : Nat → Bool := fun w => w == 11

/-! Theorems. -/

/-- C10: the mutators update_task_progress and update_image applied to a
job id or image id absent from the store return None and leave every row
of the store unchanged. -/
theorem c10_missing_row_update_noop (s : Store) (task_id image_id now : Nat)
    (u : TaskProgressUpdate) (v : ImageUpdate)
    (ht : ∀ t ∈ s.tasks, t.id ≠ task_id) (hi : ∀ i ∈ s.images, i.id ≠ image_id) :
    update_task_progress s task_id u now = (none, s) ∧
    update_image s image_id v now = (none, s) := by
  constructor
  · have hfind : s.tasks.find? (fun t => t.id == task_id) = none := by
      refine List.find?_eq_none.mpr ?_
      intro t htm
      simpa using ht t htm
    unfold update_task_progress get_task
    rw [hfind]
  · have hfind : s.images.find? (fun i => i.id == image_id) = none := by
      refine List.find?_eq_none.mpr ?_
      intro i him
      simpa using hi i him
    unfold update_image
    rw [hfind]

/-- Witness for C10 at a concrete store holding job 1 and image 10:
updating job 2 and image 20 is a silent no-op. -/
theorem c10_witness :
    update_task_progress c10Store 2 {} 5 = (none, c10Store) ∧
    update_image c10Store 20 {} 5 = (none, c10Store) :=
  c10_missing_row_update_noop c10Store 2 20 5 {} {} (by decide) (by decide)

/-- C3: the invariant processed_files + failed_files ≤ total_files is
NOT preserved by delete_image when the deleted image is in status
Failed: the code decrements total_files (and processed_files for a
Completed image) but never failed_files.  Evaluated on a store whose
single job satisfies the invariant (0 + 1 ≤ 1) and whose single image
failed, delete_image yields a job row with 0 + 1 > 0. -/
theorem c3_delete_failed_image_breaks_invariant :
    c3Task.processed_files + c3Task.failed_files ≤ c3Task.total_files ∧
    delete_image c3Store 1 10 7 =
      (some [100], { tasks := [c3TaskAfter], images := [] }) ∧
    c3TaskAfter.total_files < c3TaskAfter.processed_files + c3TaskAfter.failed_files := by
  refine ⟨by decide, by decide, by decide⟩

/-- C1: the cadence guard `processed % 100 == 0 or failed % 100 == 0`
is satisfied after EVERY image while the failed counter is still 0
(0 % 100 == 0), so a job of three images that all succeed publishes an
intermediate Processing progress event after each of them, not only
after every 100th. -/
theorem c1_progress_published_after_every_successful_image :
    (process_images 1 3
        [(1, DetectOutcome.ok false 0), (2, DetectOutcome.ok false 0),
         (3, DetectOutcome.ok false 0)] initWorkerState).events
      = [ { task_id := 1, status := AnalysisStatus.processing, processed_files := 1,
            total_files := 3, failed_files := 0, defects_found := 0,
            message := progressMessage 1 3 },
          { task_id := 1, status := AnalysisStatus.processing, processed_files := 2,
            total_files := 3, failed_files := 0, defects_found := 0,
            message := progressMessage 2 3 },
          { task_id := 1, status := AnalysisStatus.processing, processed_files := 3,
            total_files := 3, failed_files := 0, defects_found := 0,
            message := progressMessage 3 3 } ] := by
  rfl

/-- C2 counterexample: a bulk chunk of one entry whose batch-upload
raises produces no Failed status write for its image (no image row was
ever created), refuting that every image of the chunk is marked Failed. -/
theorem c2_counterexample :
    ¬ ((7, AnalysisStatus.failed) ∈
        (process_bulk_chunk 1 1 false [(7, DetectOutcome.ok false 0)]
          initWorkerState).image_marks) := by
  decide

/-- C2 (amended): a bulk chunk whose batch-upload raises advances the
failed counter by exactly the chunk size, leaves the processed counter,
the per-image status writes, the detector call count and the published
events untouched, and the loop proceeds with the remaining chunks. -/
theorem c2_bulk_upload_failure_only_counts (task_id total_files : Nat)
    (chunk : List (Nat × DetectOutcome)) (st : WorkerState)
    (rest : List (Bool × List (Nat × DetectOutcome))) :
    process_bulk_chunk task_id total_files false chunk st
        = { st with failed := st.failed + chunk.length } ∧
    (process_bulk_chunk task_id total_files false chunk st).processed = st.processed ∧
    (process_bulk_chunk task_id total_files false chunk st).image_marks = st.image_marks ∧
    (process_bulk_chunk task_id total_files false chunk st).detector_calls = st.detector_calls ∧
    (process_bulk_chunk task_id total_files false chunk st).events = st.events ∧
    process_bulk task_id total_files ((false, chunk) :: rest) st
        = process_bulk task_id total_files rest { st with failed := st.failed + chunk.length } := by
  exact ⟨rfl, rfl, rfl, rfl, rfl, rfl⟩

/-- C6 counterexample: at threshold 0.25 the conf query parameter is
omitted from the detector request (`params = {"conf": conf} if
conf != 0.25 else {}`), so the threshold is not passed verbatim there. -/
theorem c6_counterexample :
    predict_conf_params (0.25 : ℚ) ≠ [(("conf" : String), (0.25 : ℚ))] := by
  simp [predict_conf_params]

/-- C6 (amended): for every threshold in [0,1] other than 0.25, the
caller-supplied value is attached verbatim as the conf query parameter,
and any buffer within the 512 MiB bound produces the POST /predict
request carrying exactly that parameter. -/
theorem c6_conf_passed_verbatim_unless_default (conf : ℚ)
    (_hlo : 0 ≤ conf) (_hhi : conf ≤ 1) (hd : conf ≠ 0.25) :
    predict_conf_params conf = [("conf", conf)] ∧
    ∀ (filename : String) (len : Nat),
      len ≤ MAX_YOLO_FILE_SIZE_MB * 1024 * 1024 →
      predict_bytes_request filename len conf
        = Except.ok { path := "/predict", fileName := filename,
                      params := [("conf", conf)] } := by
  have hp : predict_conf_params conf = [("conf", conf)] := by
    simp [predict_conf_params, hd]
  refine ⟨hp, ?_⟩
  intro filename len hlen
  unfold predict_bytes_request
  rw [if_neg (by omega), hp]

/-- Witness for C6 at the intake default threshold 0.35: the parameter
list carries it verbatim and so does the full request for a 1000-byte
buffer. -/
theorem c6_witness :
    predict_conf_params (0.35 : ℚ) = [(("conf" : String), (0.35 : ℚ))] ∧
    predict_bytes_request "img.jpg" 1000 (0.35 : ℚ)
      = Except.ok { path := "/predict", fileName := "img.jpg",
                    params := [(("conf" : String), (0.35 : ℚ))] } := by
  have h := c6_conf_passed_verbatim_unless_default 0.35 (by norm_num) (by norm_num)
    (by norm_num)
  exact ⟨h.1, h.2 "img.jpg" 1000 (by norm_num [MAX_YOLO_FILE_SIZE_MB])⟩

/-- C4: the manual merge keeps exactly the non-manual subset of the
previous detections, appends one converted entry per user-drawn box,
and each conversion carries bbox=[x, y, x+w, y+h], confidence 1,
is_manual true and defect_summary.type driven by is_defect (default
true); hence the result holds exactly |M| manual entries and every
previously-present non-manual entry survives. -/
theorem c4_manual_merge (existing : List Detection) (M : List BBoxIn) :
    merge_manual_detections existing M
        = existing.filter (fun d => !d.is_manual) ++ M.map bbox_to_manual_detection ∧
    (merge_manual_detections existing M).countP (fun d => d.is_manual) = M.length ∧
    (∀ d ∈ existing, d.is_manual = false → d ∈ merge_manual_detections existing M) ∧
    (∀ b : BBoxIn,
      (bbox_to_manual_detection b).bbox = [b.x, b.y, b.x + b.width, b.y + b.height] ∧
      (bbox_to_manual_detection b).confidence = 1 ∧
      (bbox_to_manual_detection b).is_manual = true ∧
      (bbox_to_manual_detection b).defect_summary.type
        = (if b.is_defect.getD true then "Повреждение" else "Норма")) := by
  refine ⟨rfl, ?_, ?_, ?_⟩
  · unfold merge_manual_detections
    rw [List.countP_append]
    have h1 : (existing.filter (fun d => !d.is_manual)).countP (fun d => d.is_manual) = 0 := by
      refine List.countP_eq_zero.mpr ?_
      intro d hd
      have hman : (!d.is_manual) = true := (List.mem_filter.mp hd).2
      simp at hman
      simp [hman]
    have h2 : (M.map bbox_to_manual_detection).countP (fun d => d.is_manual) =
        (M.map bbox_to_manual_detection).length := by
      refine List.countP_eq_length.mpr ?_
      intro d hd
      obtain ⟨b, _, rfl⟩ := List.mem_map.mp hd
      rfl
    rw [h1, h2, List.length_map]
    omega
  · intro d hd hman
    exact List.mem_append_left _ (List.mem_filter.mpr ⟨hd, by simp [hman]⟩)
  · intro b
    exact ⟨rfl, rfl, rfl, rfl⟩

/-- Witness for C4: merging one box into [non-manual, manual] keeps the
non-manual entry in the result. -/
theorem c4_witness :
    c4NonManual ∈ merge_manual_detections [c4NonManual, c4Manual] [c4Box] :=
  (c4_manual_merge [c4NonManual, c4Manual] [c4Box]).2.2.1 c4NonManual
    (List.mem_cons_self _ _) rfl

/-- C5: the manual merge is idempotent on summary.detections: applying
it twice with the same box list M equals applying it once (the second
pass filters away exactly the manual entries the first pass appended). -/
theorem c5_manual_merge_idempotent (existing : List Detection) (M : List BBoxIn) :
    merge_manual_detections (merge_manual_detections existing M) M
      = merge_manual_detections existing M := by
  unfold merge_manual_detections
  rw [List.filter_append]
  have h1 : (existing.filter (fun d => !d.is_manual)).filter (fun d => !d.is_manual)
      = existing.filter (fun d => !d.is_manual) := by
    rw [List.filter_filter]
    simp
  have h2 : (M.map bbox_to_manual_detection).filter (fun d => !d.is_manual) = [] := by
    refine List.filter_eq_nil_iff.mpr ?_
    intro d hd
    obtain ⟨b, _, rfl⟩ := List.mem_map.mp hd
    simp [bbox_to_manual_detection]
  rw [h1, h2, List.append_nil]

/-- committing a mutated row: find? over the replaced row list returns
the updated row when the update keeps the primary key. -/
theorem find?_replaceTask (ts : List AnalysisTask) (tid : Nat) (t t' : AnalysisTask)
    (hfind : ts.find? (fun x => x.id == tid) = some t) (hid : t'.id = tid) :
    (replaceTask ts t').find? (fun x => x.id == tid) = some t' := by
  induction ts with
  | nil => simp at hfind
  | cons x xs ih =>
    simp only [replaceTask, List.map_cons]
    by_cases hx : x.id = tid
    · rw [if_pos (by rw [hid]; exact hx)]
      simp [List.find?_cons, hid]
    · rw [if_neg (by rw [hid]; exact hx)]
      rw [List.find?_cons_of_neg _ (by simp [hx])]
      rw [List.find?_cons_of_neg _ (by simp [hx])] at hfind
      simpa only [replaceTask] using ih hfind

/-- set_task_archives called with originals_archive_id=None leaves the
stored originals_archive_file_id of the fetched row untouched. -/
theorem set_task_archives_none_originals (s : Store) (tid : Nat) (t : AnalysisTask)
    (res : Option Nat) (md : Option MetadataDict) (n : Nat)
    (h : get_task s tid = some t) :
    ∃ t2, get_task (set_task_archives s tid none res md n).2 tid = some t2 ∧
      t2.originals_archive_file_id = t.originals_archive_file_id ∧
      t2.id = t.id := by
  have hfind : s.tasks.find? (fun x => x.id == tid) = some t := h
  have htid : t.id = tid := by
    simpa using List.find?_some hfind
  unfold set_task_archives
  rw [h]
  cases res <;> cases md <;>
    exact ⟨_, find?_replaceTask s.tasks tid t _ h (by simpa using htid), rfl, rfl⟩

/-- C9: set_task_archives treats a null originals-archive id as leave
unchanged (first conjunct, for every store and row), and therefore the
finalization sequence of the Worker — delete the staging-archive blob,
upload the results archive, call set_task_archives with
originals_archive_id=None — leaves the job row still referencing the
staging-archive blob id even though that blob is gone from the store. -/
theorem c9_staging_archive_left_dangling (s : Store) (blobs : List Nat)
    (task : AnalysisTask) (aid rid : Nat) (meta : MetadataDict) (now : Nat)
    (htask : get_task s task.id = some task)
    (horig : task.originals_archive_file_id = some aid)
    (hcount : blobs.count aid = 1)
    (hne : rid ≠ aid) :
    (∀ (s2 : Store) (tid2 n2 : Nat) (t2 : AnalysisTask) (res : Option Nat)
        (md : Option MetadataDict),
        get_task s2 tid2 = some t2 →
        ∃ t3, get_task (set_task_archives s2 tid2 none res md n2).2 tid2 = some t3 ∧
          t3.originals_archive_file_id = t2.originals_archive_file_id) ∧
    (∃ t4, get_task (finalize_task_archives s blobs task rid meta now).1 task.id = some t4 ∧
        t4.originals_archive_file_id = some aid) ∧
    aid ∉ (finalize_task_archives s blobs task rid meta now).2 := by
  refine ⟨?_, ?_, ?_⟩
  · intro s2 tid2 n2 t2 res md h2
    obtain ⟨t3, h3, h4, _⟩ := set_task_archives_none_originals s2 tid2 t2 res md n2 h2
    exact ⟨t3, h3, h4⟩
  · simp only [finalize_task_archives]
    obtain ⟨t3, h3, h4, _⟩ :=
      set_task_archives_none_originals s task.id task (some rid) (some meta) now htask
    exact ⟨t3, h3, by rw [h4, horig]⟩
  · simp only [finalize_task_archives, horig]
    intro hmem
    rcases List.mem_append.mp hmem with hmem | hmem
    · have hz : (blobs.erase aid).count aid = 0 := by
        rw [List.count_erase_self, hcount]
      exact (List.count_eq_zero.mp hz) hmem
    · simp at hmem
      exact hne hmem.symm

/-- Witness for C9: job 1 with staging archive blob 55, blob store [55],
fresh results blob 77: after finalization the row still references 55
and 55 is no longer a live blob. -/
theorem c9_witness :
    (∃ t4, get_task (finalize_task_archives c9Store [55] c9Task 77 [] 9).1 c9Task.id = some t4 ∧
        t4.originals_archive_file_id = some 55) ∧
    55 ∉ (finalize_task_archives c9Store [55] c9Task 77 [] 9).2 := by
  have h := c9_staging_archive_left_dangling c9Store [55] c9Task 55 77 [] 9
    (by decide) (by decide) (by decide) (by decide)
  exact ⟨h.2.1, h.2.2⟩

/-- when every file has a supported extension, the validation loop
passes and accumulates the combined byte size. -/
theorem scanFiles_ok_of_all (files : List UploadFileIn) (acc : Nat)
    (h : ∀ f ∈ files, file_extension f.filename ∈ SUPPORTED_EXTENSIONS) :
    scanFiles files acc = Except.ok (acc + (files.map (fun f => f.size)).sum) := by
  induction files generalizing acc with
  | nil => simp [scanFiles]
  | cons f rest ih =>
    have hf := h f (List.mem_cons_self _ _)
    have hzip : ¬(file_extension f.filename = ".zip" ∨ file_extension f.filename = ".tar") := by
      rintro (hz | hz) <;> rw [hz] at hf <;> revert hf <;> decide
    unfold scanFiles
    rw [if_neg hzip, if_neg (not_not_intro hf)]
    rw [ih (acc + f.size) (fun g hg => h g (List.mem_cons_of_mem _ hg))]
    simp only [List.map_cons, List.sum_cons]
    congr 1
    omega

/-- when the validation loop passes, every file had a supported extension. -/
theorem scanFiles_all_of_ok (files : List UploadFileIn) (acc t : Nat)
    (h : scanFiles files acc = Except.ok t) :
    ∀ f ∈ files, file_extension f.filename ∈ SUPPORTED_EXTENSIONS := by
  induction files generalizing acc with
  | nil =>
    intro f hf
    simp at hf
  | cons f rest ih =>
    unfold scanFiles at h
    by_cases hzt : file_extension f.filename = ".zip" ∨ file_extension f.filename = ".tar"
    · rw [if_pos hzt] at h
      simp at h
    · rw [if_neg hzt] at h
      by_cases hout : file_extension f.filename ∉ SUPPORTED_EXTENSIONS
      · rw [if_pos hout] at h
        simp at h
      · rw [if_neg hout] at h
        intro g hg
        rcases List.mem_cons.mp hg with heq | hgr
        · rw [heq]
          exact not_not.mp hout
        · exact ih (acc + f.size) h g hgr

/-- a file with an unsupported extension makes the validation loop fail. -/
theorem scanFiles_err_of_bad (files : List UploadFileIn) (acc : Nat)
    (h : ∃ f ∈ files, file_extension f.filename ∉ SUPPORTED_EXTENSIONS) :
    ∃ e, scanFiles files acc = Except.error e := by
  induction files generalizing acc with
  | nil => simp at h
  | cons f rest ih =>
    unfold scanFiles
    by_cases hzt : file_extension f.filename = ".zip" ∨ file_extension f.filename = ".tar"
    · rw [if_pos hzt]
      exact ⟨_, rfl⟩
    · rw [if_neg hzt]
      by_cases hout : file_extension f.filename ∉ SUPPORTED_EXTENSIONS
      · rw [if_pos hout]
        exact ⟨_, rfl⟩
      · rw [if_neg hout]
        apply ih
        obtain ⟨g, hg, hbad⟩ := h
        rcases List.mem_cons.mp hg with heq | hgr
        · exact absurd (heq ▸ hbad) hout
        · exact ⟨g, hgr, hbad⟩

/-- C7: the intake endpoint rejects with HTTP 400 exactly when the file
list is empty, has more than 50,000 entries, contains a zip/tar or an
extension outside the supported set, or exceeds 10 GiB combined; and on
every rejection no job row, no image row, no blob upload and no
work-queue publish happens. -/
theorem c7_intake_validation (files : List UploadFileIn) :
    ((∃ e, (create_batch_task files).1 = Except.error e) ↔
      (files = [] ∨ files.length > MAX_BATCH_FILES ∨
        (∃ f ∈ files,
          file_extension f.filename = ".zip" ∨ file_extension f.filename = ".tar" ∨
          file_extension f.filename ∉ SUPPORTED_EXTENSIONS) ∨
        (files.map (fun f => f.size)).sum > MAX_BATCH_SIZE_BYTES)) ∧
    (∀ e, (create_batch_task files).1 = Except.error e →
        (create_batch_task files).2 = [] ∧ rejectStatus e = 400) := by
  by_cases h0 : files.isEmpty
  · have hnil : files = [] := List.isEmpty_iff.mp h0
    subst hnil
    exact ⟨⟨fun _ => Or.inl rfl, fun _ => ⟨IntakeReject.noFiles, rfl⟩⟩,
      fun e _ => ⟨rfl, rfl⟩⟩
  · by_cases h1 : files.length > MAX_BATCH_FILES
    · have hres : create_batch_task files = (Except.error IntakeReject.tooManyFiles, []) := by
        unfold create_batch_task
        rw [if_neg (by simpa using h0), if_pos h1]
      refine ⟨⟨fun _ => Or.inr (Or.inl h1), fun _ => ⟨_, by rw [hres]⟩⟩, ?_⟩
      intro e _
      exact ⟨by rw [hres], rfl⟩
    · rcases hscan : scanFiles files 0 with e0 | t0
      · have hres : create_batch_task files = (Except.error e0, []) := by
          unfold create_batch_task
          rw [if_neg (by simpa using h0), if_neg h1, hscan]
        have hbad : ∃ f ∈ files,
            file_extension f.filename = ".zip" ∨ file_extension f.filename = ".tar" ∨
            file_extension f.filename ∉ SUPPORTED_EXTENSIONS := by
          by_contra hall
          push_neg at hall
          have hgood : ∀ f ∈ files, file_extension f.filename ∈ SUPPORTED_EXTENSIONS := by
            intro f hf
            exact (hall f hf).2.2
          rw [scanFiles_ok_of_all files 0 hgood] at hscan
          exact absurd hscan (by simp)
        refine ⟨⟨fun _ => Or.inr (Or.inr (Or.inl hbad)), fun _ => ⟨e0, by rw [hres]⟩⟩, ?_⟩
        intro e _
        exact ⟨by rw [hres], rfl⟩
      · have hgood := scanFiles_all_of_ok files 0 t0 hscan
        have hsum : t0 = (files.map (fun f => f.size)).sum := by
          have hval := scanFiles_ok_of_all files 0 hgood
          rw [hval] at hscan
          have h2 : 0 + (files.map (fun f => f.size)).sum = t0 := by
            simpa using hscan
          omega
        by_cases h2 : t0 > MAX_BATCH_SIZE_BYTES
        · have hres : create_batch_task files = (Except.error IntakeReject.tooLarge, []) := by
            unfold create_batch_task
            rw [if_neg (by simpa using h0), if_neg h1]
            split
            · rename_i e heq
              rw [heq] at hscan
              simp at hscan
            · rename_i t heq
              rw [heq] at hscan
              have ht : t = t0 := by simpa using hscan
              subst ht
              rw [if_pos h2]
          refine ⟨⟨fun _ => Or.inr (Or.inr (Or.inr (by rw [← hsum]; exact h2))),
            fun _ => ⟨_, by rw [hres]⟩⟩, ?_⟩
          intro e _
          exact ⟨by rw [hres], rfl⟩
        · have hok : (create_batch_task files).1 = Except.ok () := by
            unfold create_batch_task
            rw [if_neg (by simpa using h0), if_neg h1]
            split
            · rename_i e heq
              rw [heq] at hscan
              simp at hscan
            · rename_i t heq
              rw [heq] at hscan
              have ht : t = t0 := by simpa using hscan
              subst ht
              rw [if_neg h2]
          constructor
          · constructor
            · rintro ⟨e, he⟩
              rw [hok] at he
              simp at he
            · intro hcond
              exfalso
              rcases hcond with hnil | hlen | hbadf | hsize
              · exact h0 (by rw [hnil]; rfl)
              · exact h1 hlen
              · obtain ⟨f, hf, hcase⟩ := hbadf
                have hin := hgood f hf
                rcases hcase with hz | hz | hz
                · rw [hz] at hin
                  revert hin
                  decide
                · rw [hz] at hin
                  revert hin
                  decide
                · exact hz hin
              · rw [← hsum] at hsize
                exact h2 hsize
          · intro e he
            rw [hok] at he
            simp at he

/-- Witness for C7: a single .gif file is rejected with 400 and no
write effect is performed. -/
theorem c7_witness :
    (create_batch_task [{ filename := "a.gif", size := 5 }]).1
        = Except.error (IntakeReject.unsupportedFormat ".gif") ∧
    (create_batch_task [{ filename := "a.gif", size := 5 }]).2 = [] ∧
    rejectStatus (IntakeReject.unsupportedFormat ".gif") = 400 := by
  have h := (c7_intake_validation [{ filename := "a.gif", size := 5 }]).2
    (IntakeReject.unsupportedFormat ".gif") (by rfl)
  exact ⟨by rfl, h.1, h.2⟩

/-- erasing a batch of elements that are all different from the head
leaves the head in place. -/
theorem foldl_erase_cons_of_ne (ws : List Nat) (x : Nat) (xs : List Nat)
    (h : ∀ w ∈ ws, w ≠ x) :
    ws.foldl (fun acc w => acc.erase w) (x :: xs)
      = x :: ws.foldl (fun acc w => acc.erase w) xs := by
  induction ws generalizing xs with
  | nil => rfl
  | cons w ws ih =>
    have hwx : x ≠ w := (h w (List.mem_cons_self _ _)).symm
    simp only [List.foldl_cons]
    rw [List.erase_cons_tail (by simp [hwx])]
    exact ih _ (fun u hu => h u (List.mem_cons_of_mem _ hu))

/-- dropping, one by one, exactly the elements that satisfy p leaves
the elements that do not. -/
theorem foldl_erase_filter (l : List Nat) (p : Nat → Bool) :
    (l.filter p).foldl (fun acc w => acc.erase w) l = l.filter (fun w => !p w) := by
  induction l with
  | nil => rfl
  | cons x xs ih =>
    by_cases hx : p x
    · rw [List.filter_cons_of_pos hx]
      simp only [List.foldl_cons, List.erase_cons_head]
      rw [ih, List.filter_cons_of_neg (by simp [hx])]
    · rw [List.filter_cons_of_neg hx]
      rw [foldl_erase_cons_of_ne _ x xs ?hne]
      · rw [ih, List.filter_cons_of_pos (by simp [hx])]
      case hne =>
        intro w hw hwx
        have hpw : p w := (List.mem_filter.mp hw).2
        rw [hwx] at hpw
        exact hx hpw

/-- effect of the disconnect loop of send_to_history on the registries. -/
theorem disconnectHistory_fold (ds : List Nat) (m : WSManager) :
    (ds.foldl (fun acc w => wsDisconnectHistory acc w) m).history_connections
        = ds.foldl (fun acc w => acc.erase w) m.history_connections ∧
    (ds.foldl (fun acc w => wsDisconnectHistory acc w) m).connections = m.connections := by
  induction ds generalizing m with
  | nil => exact ⟨rfl, rfl⟩
  | cons d ds ih =>
    simp only [List.foldl_cons]
    exact ⟨(ih _).1, (ih _).2⟩

/-- effect of the disconnect loop of send_to_task on the registries:
only the sockets of that task are touched. -/
theorem disconnect_fold (ds : List Nat) (tid : Nat) (m : WSManager) :
    (ds.foldl (fun acc w => wsDisconnect acc tid w) m).history_connections
        = m.history_connections ∧
    (ds.foldl (fun acc w => wsDisconnect acc tid w) m).connections tid
        = ds.foldl (fun acc w => acc.erase w) (m.connections tid) ∧
    ∀ t, t ≠ tid →
      (ds.foldl (fun acc w => wsDisconnect acc tid w) m).connections t = m.connections t := by
  induction ds generalizing m with
  | nil => exact ⟨rfl, rfl, fun _ _ => rfl⟩
  | cons d ds ih =>
    simp only [List.foldl_cons]
    refine ⟨(ih _).1, ?_, ?_⟩
    · rw [(ih _).2.1]
      have hd : (wsDisconnect m tid d).connections tid = (m.connections tid).erase d := by
        simp [wsDisconnect]
      rw [hd]
    · intro t ht
      rw [(ih _).2.2 t ht]
      simp [wsDisconnect, ht]

/-- C8: a progress fan-out for job tid is delivered to every registered
subscriber of tid whose send succeeds and to every history subscriber
whose send succeeds; nothing is delivered to a subscriber registered
only for another job; every subscriber whose send raises is removed
from its registry, other registrations stay untouched, and a failing
subscriber never prevents delivery to the rest. -/
theorem c8_fanout (fails : Nat → Bool) (tid : Nat) (m : WSManager) :
    (∀ w ∈ m.connections tid, fails w = false → w ∈ (send_to_task fails tid m).2) ∧
    (∀ w ∈ m.history_connections, fails w = false → w ∈ (send_to_task fails tid m).2) ∧
    (∀ w ∈ (send_to_task fails tid m).2,
        w ∈ m.connections tid ∨ w ∈ m.history_connections) ∧
    (send_to_task fails tid m).1.connections tid
        = (m.connections tid).filter (fun w => !fails w) ∧
    (send_to_task fails tid m).1.history_connections
        = m.history_connections.filter (fun w => !fails w) ∧
    (∀ t, t ≠ tid → (send_to_task fails tid m).1.connections t = m.connections t) := by
  have hm1 := disconnect_fold ((m.connections tid).filter fails) tid m
  set m1 := ((m.connections tid).filter fails).foldl
      (fun acc w => wsDisconnect acc tid w) m with hm1def
  have hist1 : m1.history_connections = m.history_connections := hm1.1
  have hconn1 : m1.connections tid = (m.connections tid).filter (fun w => !fails w) := by
    rw [hm1.2.1, foldl_erase_filter]
  have hother1 : ∀ t, t ≠ tid → m1.connections t = m.connections t := hm1.2.2
  have hm2 := disconnectHistory_fold (m1.history_connections.filter fails) m1
  have hsend : send_to_task fails tid m =
      ((m1.history_connections.filter fails).foldl
          (fun acc w => wsDisconnectHistory acc w) m1,
        (m.connections tid).filter (fun w => !fails w)
          ++ m1.history_connections.filter (fun w => !fails w)) := by
    simp only [send_to_task, send_to_history, hm1def]
  refine ⟨?_, ?_, ?_, ?_, ?_, ?_⟩
  · intro w hw hf
    rw [hsend]
    exact List.mem_append_left _ (List.mem_filter.mpr ⟨hw, by simp [hf]⟩)
  · intro w hw hf
    rw [hsend]
    refine List.mem_append_right _ (List.mem_filter.mpr ⟨?_, by simp [hf]⟩)
    rw [hist1]
    exact hw
  · intro w hw
    rw [hsend] at hw
    rcases List.mem_append.mp hw with hw | hw
    · exact Or.inl (List.mem_filter.mp hw).1
    · right
      have := (List.mem_filter.mp hw).1
      rwa [hist1] at this
  · rw [hsend]
    simpa only [hm2.2] using hconn1
  · rw [hsend]
    simp only []
    rw [hm2.1, foldl_erase_filter, hist1]
  · intro t ht
    rw [hsend]
    simp only []
    rw [congrFun hm2.2 t]
    exact hother1 t ht

/-- Witness for C8 on a hub with sockets 10 and 11 on job 1, socket 20
on job 2 and history socket 30, where socket 11 raises: 10 and 30 are
delivered, job 2 keeps its socket, job 1 keeps only socket 10. -/
theorem c8_witness :
    10 ∈ (send_to_task wsFails 1 wsSample).2 ∧
    30 ∈ (send_to_task wsFails 1 wsSample).2 ∧
    (send_to_task wsFails 1 wsSample).1.connections 2 = [20] ∧
    (send_to_task wsFails 1 wsSample).1.connections 1 = [10] := by
  have h := c8_fanout wsFails 1 wsSample
  refine ⟨h.1 10 (by decide) (by decide), ?_, ?_, ?_⟩
  · exact h.2.1 30 (by decide) (by decide)
  · rw [h.2.2.2.2.2 2 (by decide)]
    rfl
  · rw [h.2.2.2.1]
    rfl

end LineGuard
